import Mathlib

/-!
Shallow embedding of `src/post_bible_image.py`.

The script posts sequential images from a local directory to a Facebook
page, tracking progress in a one-integer state file.  We model its three
functions — `get_next_image`, `update_state_file`, `post_image` — as pure
Lean functions over an explicit environment (directory listing, state-file
contents, credentials, HTTP behaviour).  An uncaught Python exception is
modelled as `Except.error`; the caught-and-logged paths are `Except.ok`
with an `Outcome` describing which branch ran.

String primitives are modelled on `List Char` (ASCII-faithful: Python's
`str.isdigit`/`int` also accept some non-ASCII digit characters, and
`int` accepts underscores between digits, but no claim depends on those
inputs).
-/

namespace BiblePoster

/-- Whitespace predicate used by Python's `str.strip()` / `int()`. -/
def pyIsSpace (c : Char) : Bool := c.isWhitespace

/-- `str.strip()`: drop whitespace from both ends. -/
def stripChars (cs : List Char) : List Char :=
  ((cs.dropWhile pyIsSpace).reverse.dropWhile pyIsSpace).reverse

/-- Numeric value of a decimal digit character. -/
def digitVal (c : Char) : Nat := c.toNat - 48

/-- Parse a nonempty all-digit string as a natural number (the digit part
of Python's `int()`). -/
def parseNat? (cs : List Char) : Option Nat :=
  if cs ≠ [] ∧ cs.all Char.isDigit then
    some (cs.foldl (fun a c => 10 * a + digitVal c) 0)
  else none

/-- Model of Python `int(s)`: strip whitespace, then an optional sign
followed by at least one digit; anything else raises `ValueError`
(modelled as `none`). -/
def pyInt? (s : String) : Option Int :=
  match stripChars s.data with
  | [] => none
  | c :: cs =>
    if c = '-' then (parseNat? cs).map (fun n => -(n : Int))
    else if c = '+' then (parseNat? cs).map (fun n => (n : Int))
    else (parseNat? (c :: cs)).map (fun n => (n : Int))

/-- The decimal digit characters, as produced by Python `str` on `0..9`. -/
def digitChar : Nat → Char
  | 0 => '0'
  | 1 => '1'
  | 2 => '2'
  | 3 => '3'
  | 4 => '4'
  | 5 => '5'
  | 6 => '6'
  | 7 => '7'
  | 8 => '8'
  | _ => '9'

/-- Decimal representation of a natural number, most significant digit
first (fuel-indexed so that it computes by structural recursion; the fuel
`n + 1` always suffices since a number has at most `n + 1` digits). -/
def natReprAux : Nat → Nat → List Char
  | 0, _ => []
  | fuel + 1, n =>
    if n < 10 then [digitChar n]
    else natReprAux fuel (n / 10) ++ [digitChar (n % 10)]

/-- Model of Python `str(n)` for a natural number. -/
def natReprChars (n : Nat) : List Char := natReprAux (n + 1) n

/-- Model of Python `str(i)` for an integer: decimal digits with a leading
minus sign when negative. -/
def intReprChars (i : Int) : List Char :=
  if i < 0 then '-' :: natReprChars i.natAbs else natReprChars i.toNat

/-- Model of Python `str(i)` as a `String`. -/
def strOfInt (i : Int) : String := String.mk (intReprChars i)

/-- `f.lower()`, character by character. -/
def lowerChars (s : String) : List Char := s.data.map Char.toLower

/-- `f.lower().endswith(suffix)`. -/
def endsWithChars (suffix : List Char) (s : String) : Bool :=
  suffix.isSuffixOf (lowerChars s)

/-- Line 25: `f.lower().endswith((".png", ".jpg", ".jpeg"))`. -/
def isImageFile (f : String) : Bool :=
  endsWithChars ['.', 'p', 'n', 'g'] f || endsWithChars ['.', 'j', 'p', 'g'] f ||
    endsWithChars ['.', 'j', 'p', 'e', 'g'] f

/-- `filter(str.isdigit, x)`: the digit characters of a filename. -/
def digitsOf (f : String) : List Char := f.data.filter Char.isDigit

/-- Line 26 key: `int(''.join(filter(str.isdigit, x)))`; `none` models the
`ValueError` raised when the filename contains no digit. -/
def sortKey? (f : String) : Option Nat := parseNat? (digitsOf f)

/-- The key actually compared once every matching filename is known to
have a digit. -/
def keyOf (f : String) : Nat := (sortKey? f).getD 0

/-- The comparison `sorted` performs: key of one file at most key of the
other. -/
def keyLe (a b : String) : Prop := keyOf a ≤ keyOf b

instance : DecidableRel keyLe := fun a b => inferInstanceAs (Decidable (keyOf a ≤ keyOf b))

instance : IsTotal String keyLe := ⟨fun a b => Nat.le_total (keyOf a) (keyOf b)⟩

instance : IsTrans String keyLe := ⟨fun _ _ _ h h' => Nat.le_trans h h'⟩

/-- Lines 23-26: Python `sorted(..., key=...)` is a stable sort comparing
keys; insertion sort with a non-strict key comparison is likewise stable,
so the two agree on every input. -/
def sortedByKey (files : List String) : List String :=
  List.insertionSort keyLe files

/-- The images directory: either missing (`os.listdir` raises
`FileNotFoundError`) or a listing of filenames. -/
inductive Dir where
  | missing
  | present (entries : List String)

/-- Uncaught Python exceptions the script can raise. -/
inductive PyErr where
  | ioError     -- e.g. PermissionError from open() on an unreadable state file
  | indexError  -- list index out of range
  | jsonError   -- JSON decoding failure raised inside the HTTPError handler
deriving DecidableEq

instance {ε α : Type} [DecidableEq ε] [DecidableEq α] : DecidableEq (Except ε α) :=
  fun x y =>
    match x, y with
    | .error e, .error f =>
      if h : e = f then .isTrue (congrArg Except.error h)
      else .isFalse (fun c => h (by injection c))
    | .error _, .ok _ => .isFalse (fun c => Except.noConfusion c)
    | .ok _, .error _ => .isFalse (fun c => Except.noConfusion c)
    | .ok a, .ok b =>
      if h : a = b then .isTrue (congrArg Except.ok h)
      else .isFalse (fun c => h (by injection c))

/-- The persisted state file `last_posted.txt`: absent
(`os.path.exists` is false), present but not openable (`open` raises,
e.g. `PermissionError`), or present with text contents. -/
inductive StateFile where
  | absent
  | unreadable
  | content (s : String)
deriving DecidableEq

/-- Lines 39-46: default `-1`; if the file exists, `open` it (an unreadable
file raises — the `try` there only guards `int(f.read().strip())`), and a
non-integer content falls back to `-1` via `except (ValueError, TypeError)`. -/
def readStateValue : StateFile → Except PyErr Int
  | .absent => .ok (-1)
  | .unreadable => .error .ioError
  | .content s => .ok ((pyInt? s).getD (-1))

/-- Python list subscription `xs[i]`: a negative index counts from the
end; `none` models `IndexError`. -/
def pyGet? {α : Type} (xs : List α) (i : Int) : Option α :=
  if i < 0 then
    if 0 ≤ (xs.length : Int) + i then xs[((xs.length : Int) + i).toNat]? else none
  else xs[i.toNat]?

/-- Lines 39-57 of `get_next_image`, after the sorted file list exists:
read the state, compute `next_index_to_post`, and return
`files[next_index_to_post]` when `next_index_to_post < len(files)`,
else the none-triple ("All images have been posted"). -/
def selectNext (files : List String) (st : StateFile) :
    Except PyErr (Option (String × Int)) :=
  match readStateValue st with
  | .error e => .error e
  | .ok last =>
    -- next_index_to_post = last_posted_index + 1
    if last + 1 < (files.length : Int) then
      match pyGet? files (last + 1) with
      | some f => .ok (some (f, last + 1))
      | none => .error .indexError
    else .ok none

/-- Lines 19-57: the whole of `get_next_image`.  `FileNotFoundError` from
`os.listdir` and `ValueError` from the sort key are caught and yield the
none-triple, as does an empty filtered listing. -/
def get_next_image (dir : Dir) (st : StateFile) :
    Except PyErr (Option (String × Int)) :=
  match dir with
  | .missing => .ok none
  | .present entries =>
    if (entries.filter isImageFile).all (fun f => (sortKey? f).isSome) then
      if (sortedByKey (entries.filter isImageFile)).isEmpty then .ok none
      else selectNext (sortedByKey (entries.filter isImageFile)) st
    else .ok none

/-- Lines 59-63: `update_state_file` overwrites the state file with
`str(last_successful_index)`. -/
def update_state_file (index : Int) : StateFile := .content (strOfInt index)

/-- What `requests.post` yields: a response (status code plus whether the
body parses as JSON) or a transport-level failure (`ConnectionError`,
`Timeout`, ... — all subclasses of `requests.exceptions.RequestException`). -/
inductive HttpResult where
  | response (status : Nat) (jsonBody : Bool)
  | transportFailure
deriving DecidableEq

/-- `response.raise_for_status()` raises `requests.exceptions.HTTPError`
exactly for status codes 400-599 (4xx client errors, 5xx server errors). -/
def raisesForStatus (status : Nat) : Bool := 400 ≤ status && status < 600

/-- The environment of one invocation of `post_image`. -/
structure Env where
  pageId : Option String        -- os.getenv("FACEBOOK_PAGE_ID")
  accessToken : Option String   -- os.getenv("FACEBOOK_ACCESS_TOKEN")
  dir : Dir                     -- contents of IMAGES_DIR
  stateFile : StateFile         -- contents of STATE_FILE
  imageOpenable : String → Bool -- whether open(image_path, "rb") succeeds
  http : HttpResult             -- behaviour of the network on this invocation

/-- Python truthiness of `os.getenv`'s result: `None` and `""` are falsy. -/
def pyFalsy : Option String → Bool
  | none => true
  | some s => s.isEmpty

/-- Which caught-and-logged branch of `post_image` ran. -/
inductive Outcome where
  | noCredentials               -- lines 68-74: fatal credential check fired
  | nothingSelected             -- get_next_image returned the none-triple
  | posted (idx : Int)          -- success branch: state file was updated
  | imageMissing                -- except FileNotFoundError
  | httpErrorLogged (status : Nat)  -- except HTTPError, fully logged
  | transportErrorLogged        -- except RequestException
  | otherCaught                 -- a 2xx body that is not JSON: response.json()
                                -- raises and is caught (except Exception, or the
                                -- RequestException handler in requests >= 2.27)
deriving DecidableEq

/-- Observable result of one invocation of `post_image`: the state file
afterwards, whether `os.listdir` / `requests.post` / `update_state_file`
were reached, and the outcome (or the uncaught exception). -/
structure RunResult where
  state : StateFile
  listedDir : Bool
  postedHttp : Bool
  wrote : Bool
  result : Except PyErr Outcome

/-- Lines 65-115: the whole of `post_image`. -/
def post_image (env : Env) : RunResult :=
  if pyFalsy env.pageId || pyFalsy env.accessToken then
    { state := env.stateFile, listedDir := false, postedHttp := false,
      wrote := false, result := .ok .noCredentials }
  else
    match get_next_image env.dir env.stateFile with
    | .error e =>
      -- get_next_image is called outside the try; its exceptions escape
      { state := env.stateFile, listedDir := true, postedHttp := false,
        wrote := false, result := .error e }
    | .ok none =>
      { state := env.stateFile, listedDir := true, postedHttp := false,
        wrote := false, result := .ok .nothingSelected }
    | .ok (some (name, idx)) =>
      if env.imageOpenable name = false then
        -- open(image_path, "rb") raises FileNotFoundError; caught at line 104
        { state := env.stateFile, listedDir := true, postedHttp := false,
          wrote := false, result := .ok .imageMissing }
      else
        match env.http with
        | .transportFailure =>
          -- except requests.exceptions.RequestException, line 111
          { state := env.stateFile, listedDir := true, postedHttp := true,
            wrote := false, result := .ok .transportErrorLogged }
        | .response status jsonBody =>
          if raisesForStatus status then
            if jsonBody then
              -- except HTTPError: logs e.response.status_code and e.response.json()
              { state := env.stateFile, listedDir := true, postedHttp := true,
                wrote := false, result := .ok (.httpErrorLogged status) }
            else
              -- e.response.json() raises inside the HTTPError handler; an
              -- exception raised in a handler is not caught by the later
              -- clauses of the same try, so it escapes post_image
              { state := env.stateFile, listedDir := true, postedHttp := true,
                wrote := false, result := .error .jsonError }
          else
            if jsonBody then
              -- success: print post_id, then update_state_file(image_index)
              { state := update_state_file idx, listedDir := true,
                postedHttp := true, wrote := true, result := .ok (.posted idx) }
            else
              { state := env.stateFile, listedDir := true, postedHttp := true,
                wrote := false, result := .ok .otherCaught }

/-- The per-invocation inputs that are independent of the state file. -/
structure Stimulus where
  pageId : Option String
  accessToken : Option String
  dir : Dir
  imageOpenable : String → Bool
  http : HttpResult

/-- Assemble an invocation environment from a stimulus and the current
state file. -/
def envOf (p : Stimulus) (st : StateFile) : Env :=
  { pageId := p.pageId, accessToken := p.accessToken, dir := p.dir,
    stateFile := st, imageOpenable := p.imageOpenable, http := p.http }

/-- Run the one-shot sequence once per stimulus, threading the state file;
returns the list of state-file values after each invocation. -/
def runSeq : List Stimulus → StateFile → List StateFile
  | [], _ => []
  | p :: ps, st =>
    (post_image (envOf p st)).state :: runSeq ps (post_image (envOf p st)).state

/-- A concrete environment for exercising single runs: credentials
present, the directory holds one image `a1.png`, the image file opens;
state file and HTTP behaviour vary per use. -/
def testEnv (st : StateFile) (h : HttpResult) : Env :=
  { pageId := some "p", accessToken := some "t", dir := .present ["a1.png"],
    stateFile := st, imageOpenable := fun _ => true, http := h }

/-- The stimulus corresponding to `testEnv`. -/
def testStim (h : HttpResult) : Stimulus :=
  { pageId := some "p", accessToken := some "t", dir := .present ["a1.png"],
    imageOpenable := fun _ => true, http := h }

/-! ### The decimal printer and the integer parser agree

`update_state_file` writes `str(index)` and the next invocation reads it
back with `int`; the lemmas here show the write-then-read roundtrip is the
identity. -/

theorem digitChar_isDigit {d : Nat} (h : d < 10) : (digitChar d).isDigit = true := by
  interval_cases d <;> decide

theorem digitVal_digitChar {d : Nat} (h : d < 10) : digitVal (digitChar d) = d := by
  interval_cases d <;> decide

theorem natReprAux_all_digits (fuel : Nat) :
    ∀ n, (natReprAux fuel n).all Char.isDigit = true := by
  induction fuel with
  | zero => intro n; rfl
  | succ fuel ih =>
    intro n
    unfold natReprAux
    by_cases h : n < 10
    · simp [h, digitChar_isDigit h]
    · simp [h, List.all_append, ih (n / 10),
        digitChar_isDigit (Nat.mod_lt n (by norm_num))]

theorem natReprAux_ne_nil (fuel n : Nat) (h : 0 < fuel) : natReprAux fuel n ≠ [] := by
  cases fuel with
  | zero => omega
  | succ fuel =>
    unfold natReprAux
    by_cases h10 : n < 10 <;> simp [h10]

theorem natReprAux_foldl (fuel : Nat) :
    ∀ n a, n < 10 ^ fuel →
      (natReprAux fuel n).foldl (fun a c => 10 * a + digitVal c) a =
        a * 10 ^ (natReprAux fuel n).length + n := by
  induction fuel with
  | zero =>
    intro n a h
    interval_cases n
    simp [natReprAux]
  | succ fuel ih =>
    intro n a h
    unfold natReprAux
    by_cases h10 : n < 10
    · simp [h10, digitVal_digitChar h10]
      omega
    · have hdiv : n / 10 < 10 ^ fuel := by
        have hlt : n < 10 ^ fuel * 10 := by
          rw [← pow_succ]; exact h
        omega
      have hmod : n % 10 < 10 := Nat.mod_lt n (by norm_num)
      simp only [h10, if_false, List.foldl_append, List.length_append,
        List.foldl_cons, List.foldl_nil, List.length_cons, List.length_nil]
      rw [ih (n / 10) a hdiv, digitVal_digitChar hmod]
      have hdm : 10 * (n / 10) + n % 10 = n := Nat.div_add_mod n 10
      calc 10 * (a * 10 ^ (natReprAux fuel (n / 10)).length + n / 10) + n % 10
          = a * 10 ^ ((natReprAux fuel (n / 10)).length + (0 + 1)) +
              (10 * (n / 10) + n % 10) := by ring
        _ = a * 10 ^ ((natReprAux fuel (n / 10)).length + (0 + 1)) + n := by rw [hdm]

theorem parseNat?_natReprChars (n : Nat) : parseNat? (natReprChars n) = some n := by
  have h2 : n < 2 ^ n := Nat.lt_two_pow n
  have hfuel : n < 10 ^ (n + 1) := by
    have h10 : 2 ^ n ≤ 10 ^ n := Nat.pow_le_pow_left (by norm_num) n
    have h11 : 10 ^ n ≤ 10 ^ (n + 1) := Nat.pow_le_pow_right (by norm_num) (Nat.le_succ n)
    omega
  unfold parseNat? natReprChars
  rw [if_pos ⟨natReprAux_ne_nil _ _ (Nat.succ_pos n), natReprAux_all_digits _ _⟩]
  rw [natReprAux_foldl (n + 1) n 0 hfuel]
  simp

theorem not_space_of_isDigit {c : Char} (h : c.isDigit = true) : pyIsSpace c = false := by
  unfold pyIsSpace Char.isWhitespace
  by_cases h1 : c = ' '
  · subst h1; exact absurd h (by decide)
  by_cases h2 : c = '\t'
  · subst h2; exact absurd h (by decide)
  by_cases h3 : c = '\r'
  · subst h3; exact absurd h (by decide)
  by_cases h4 : c = '\n'
  · subst h4; exact absurd h (by decide)
  simp [h1, h2, h3, h4]

theorem ne_minus_of_isDigit {c : Char} (h : c.isDigit = true) : c ≠ '-' := by
  rintro rfl; exact absurd h (by decide)

theorem ne_plus_of_isDigit {c : Char} (h : c.isDigit = true) : c ≠ '+' := by
  rintro rfl; exact absurd h (by decide)

theorem dropWhile_eq_self_of_all {p : Char → Bool} :
    ∀ {cs : List Char}, (∀ c ∈ cs, p c = false) → cs.dropWhile p = cs
  | [], _ => rfl
  | c :: cs, h => by simp [List.dropWhile_cons, h c (by simp)]

theorem stripChars_eq_self {cs : List Char} (h : ∀ c ∈ cs, pyIsSpace c = false) :
    stripChars cs = cs := by
  unfold stripChars
  rw [dropWhile_eq_self_of_all h]
  rw [dropWhile_eq_self_of_all (fun c hc => h c (List.mem_reverse.mp hc))]
  exact List.reverse_reverse cs

theorem pyInt?_strOfInt (i : Int) : pyInt? (strOfInt i) = some i := by
  by_cases hneg : i < 0
  · have hall := natReprAux_all_digits (i.natAbs + 1) i.natAbs
    have hstrip : stripChars ('-' :: natReprChars i.natAbs) = '-' :: natReprChars i.natAbs := by
      apply stripChars_eq_self
      intro c hc
      rcases List.mem_cons.mp hc with h | h
      · subst h; decide
      · exact not_space_of_isDigit (by
          have := List.all_eq_true.mp hall c h
          simpa using this)
    show pyInt? (String.mk (intReprChars i)) = some i
    unfold pyInt? intReprChars
    simp only [hneg, if_true, hstrip, parseNat?_natReprChars]
    simp
    rw [abs_of_neg hneg, neg_neg]
  · have hall : (natReprChars i.toNat).all Char.isDigit = true :=
      natReprAux_all_digits (i.toNat + 1) i.toNat
    have hne : natReprChars i.toNat ≠ [] :=
      natReprAux_ne_nil (i.toNat + 1) i.toNat (Nat.succ_pos _)
    have hstrip : stripChars (natReprChars i.toNat) = natReprChars i.toNat := by
      apply stripChars_eq_self
      intro c hc
      exact not_space_of_isDigit (by
        have := List.all_eq_true.mp hall c hc
        simpa using this)
    show pyInt? (String.mk (intReprChars i)) = some i
    unfold pyInt? intReprChars
    simp only [hneg]
    simp only [ite_false]
    rw [hstrip]
    cases hcs : natReprChars i.toNat with
    | nil => exact absurd hcs hne
    | cons c cs =>
      have hcd : c.isDigit = true := by
        have := List.all_eq_true.mp (hcs ▸ hall) c (by simp)
        simpa using this
      simp only [if_neg (ne_minus_of_isDigit hcd), if_neg (ne_plus_of_isDigit hcd)]
      rw [← hcs, parseNat?_natReprChars]
      simp
      omega

/-- The write-then-read roundtrip on the state file is the identity. -/
theorem readStateValue_update (i : Int) :
    readStateValue (update_state_file i) = .ok i := by
  simp [readStateValue, update_state_file, pyInt?_strOfInt]

/-! ### Structure of one invocation -/

/-- A successful selection pairs the file with index `read + 1`. -/
theorem selectNext_ok_some {files : List String} {st : StateFile} {nm : String} {i : Int}
    (h : selectNext files st = .ok (some (nm, i))) :
    ∃ k, readStateValue st = .ok k ∧ i = k + 1 := by
  unfold selectNext at h
  split at h
  · exact absurd h (by simp)
  next last hr =>
    split at h
    · split at h
      · next f hget =>
        simp only [Except.ok.injEq, Option.some.injEq, Prod.mk.injEq] at h
        exact ⟨last, hr, h.2.symm⟩
      · exact absurd h (by simp)
    · exact absurd h (by simp)

/-- Same fact lifted to the whole of `get_next_image`. -/
theorem get_next_image_ok_some {d : Dir} {st : StateFile} {nm : String} {i : Int}
    (h : get_next_image d st = .ok (some (nm, i))) :
    ∃ k, readStateValue st = .ok k ∧ i = k + 1 := by
  unfold get_next_image at h
  split at h
  · exact absurd h (by simp)
  · split at h
    · split at h
      · exact absurd h (by simp)
      · exact selectNext_ok_some h
    · exact absurd h (by simp)

/-- The selector only depends on the state file through the value
`readStateValue` yields. -/
theorem get_next_image_congr {d : Dir} {st st' : StateFile}
    (h : readStateValue st = readStateValue st') :
    get_next_image d st = get_next_image d st' := by
  unfold get_next_image selectNext
  cases d with
  | missing => rfl
  | present entries => rw [h]

/-- If `update_state_file` is not reached, the state file is untouched. -/
theorem post_wrote_false_state (env : Env) :
    (post_image env).wrote = false → (post_image env).state = env.stateFile := by
  unfold post_image
  repeat' split
  all_goals intro h
  all_goals first | rfl | simp at h

/-- `update_state_file` is reached only on the success branch. -/
theorem post_wrote_true_posted (env : Env) :
    (post_image env).wrote = true → ∃ idx, (post_image env).result = .ok (.posted idx) := by
  unfold post_image
  repeat' split
  all_goals intro h
  all_goals first | exact ⟨_, rfl⟩ | simp at h

/-- On the success branch the write is performed. -/
theorem post_posted_wrote (env : Env) (idx : Int) :
    (post_image env).result = .ok (.posted idx) → (post_image env).wrote = true := by
  unfold post_image
  repeat' split
  all_goals intro h
  all_goals first | rfl | simp at h

/-- Anatomy of the success branch: the state file now holds `str(idx)`,
the entry selected for this invocation has index `idx`, its image file
opened, and the response had a non-4xx/5xx status and a JSON body. -/
theorem post_posted_spec (env : Env) (idx : Int) :
    (post_image env).result = .ok (.posted idx) →
    (post_image env).state = update_state_file idx ∧
    (∃ nm, get_next_image env.dir env.stateFile = .ok (some (nm, idx)) ∧
      env.imageOpenable nm = true) ∧
    ∃ s, env.http = .response s true ∧ raisesForStatus s = false := by
  unfold post_image
  repeat' split
  all_goals intro h
  all_goals simp at h
  rename_i hcred x1 name i0 hsel himg x2 status jsonBody hhttp hst hjson
  subst hjson
  cases h
  exact ⟨rfl, ⟨name, hsel, by simpa using himg⟩, status, hhttp, by simpa using hst⟩

/-- A run whose HTTP result is not a success response (or whose selected
image file does not open) leaves the state file untouched. -/
theorem post_not_success_state (env : Env)
    (hfail : (∀ s, env.http = .response s true → raisesForStatus s = true) ∨
      (∀ nm i, get_next_image env.dir env.stateFile = .ok (some (nm, i)) →
        env.imageOpenable nm = false)) :
    (post_image env).state = env.stateFile := by
  apply post_wrote_false_state
  cases hw : (post_image env).wrote
  · rfl
  · exfalso
    obtain ⟨idx, hres⟩ := post_wrote_true_posted env hw
    obtain ⟨-, ⟨nm, hsel, himg⟩, s, hhttp, hrs⟩ := post_posted_spec env idx hres
    rcases hfail with hf | hf
    · rw [hf s hhttp] at hrs
      cases hrs
    · rw [hf nm idx hsel] at himg
      cases himg

/-- One invocation of the sequence: the state file stays put, or the run
read value `k`, successfully posted the entry selected at index `k + 1`,
and rewrote the file to `str(k + 1)`. -/
theorem post_image_step (env : Env) :
    (post_image env).state = env.stateFile ∨
    ∃ k nm, readStateValue env.stateFile = .ok k ∧
      get_next_image env.dir env.stateFile = .ok (some (nm, k + 1)) ∧
      (post_image env).result = .ok (.posted (k + 1)) ∧
      (post_image env).state = update_state_file (k + 1) ∧
      readStateValue (post_image env).state = .ok (k + 1) := by
  cases hw : (post_image env).wrote
  · exact Or.inl (post_wrote_false_state env hw)
  · right
    obtain ⟨idx, hres⟩ := post_wrote_true_posted env hw
    obtain ⟨hstate, ⟨nm, hsel, -⟩, -⟩ := post_posted_spec env idx hres
    obtain ⟨k, hread, hidx⟩ := get_next_image_ok_some hsel
    subst hidx
    refine ⟨k, nm, hread, hsel, hres, hstate, ?_⟩
    rw [hstate]
    exact readStateValue_update _

/-! ### Claims -/

/-- C7: whenever the page identifier or the access token is absent from
the configuration, `post_image` returns before any directory scan or
network activity (lines 68-74 precede the `get_next_image` call and the
HTTP request), leaving the persisted state untouched. -/
theorem C7_missing_credentials_short_circuit (env : Env)
    (h : env.pageId = none ∨ env.accessToken = none) :
    post_image env =
      { state := env.stateFile, listedDir := false, postedHttp := false,
        wrote := false, result := .ok .noCredentials } := by
  have hf : (pyFalsy env.pageId || pyFalsy env.accessToken) = true := by
    rcases h with h | h <;> rw [h] <;> simp [pyFalsy]
  unfold post_image
  rw [if_pos hf]

/-- C7 witness: a run with no page identifier configured. -/
theorem C7_missing_credentials_short_circuit_witness :
    post_image
      { pageId := none, accessToken := some "t", dir := .present ["a1.png"],
        stateFile := .absent, imageOpenable := fun _ => true, http := .transportFailure } =
      { state := .absent, listedDir := false, postedHttp := false,
        wrote := false, result := .ok .noCredentials } :=
  C7_missing_credentials_short_circuit _ (Or.inl rfl)

/-- C1 counterexample: the claim reads "if the publish fails (missing
image file, non-2xx response, or transport error), the persisted state
value is unchanged".  A 300-status response is non-2xx, yet
`response.raise_for_status()` raises only for 4xx/5xx, so the code takes
the success branch and advances the state from absent to `"0"`. -/
theorem C1_counterexample :
    (post_image (testEnv .absent (.response 300 true))).state = .content "0" ∧
    (post_image (testEnv .absent (.response 300 true))).state ≠
      (testEnv .absent (.response 300 true)).stateFile ∧
    (post_image (testEnv .absent (.response 300 true))).result = .ok (.posted 0) ∧
    ¬(200 ≤ 300 ∧ 300 < 300) := by
  refine ⟨by decide, by decide, by decide, by omega⟩

/-- C1 (amended): after a run whose outcome is a successful post of the
entry with index `idx` (a response with status outside 400-599 and a JSON
body), the persisted state is exactly `str(idx)` and reads back as `idx`,
where `idx` is the index of the entry the run selected; after any run that
did not reach the success branch (missing image file, 4xx/5xx response,
non-JSON body, transport error, and every other non-success path) the
state file is unchanged; the state write happens on the success branch and
nowhere else — never speculatively. -/
theorem C1_state_advances_only_on_success (env : Env) :
    (∀ idx, (post_image env).result = .ok (.posted idx) →
      (post_image env).state = update_state_file idx ∧
      readStateValue (post_image env).state = .ok idx ∧
      ∃ nm, get_next_image env.dir env.stateFile = .ok (some (nm, idx))) ∧
    ((∀ idx, (post_image env).result ≠ .ok (.posted idx)) →
      (post_image env).state = env.stateFile) ∧
    ((post_image env).wrote = false → (post_image env).state = env.stateFile) ∧
    ((post_image env).wrote = true →
      ∃ idx, (post_image env).result = .ok (.posted idx)) := by
  refine ⟨?_, ?_, post_wrote_false_state env, post_wrote_true_posted env⟩
  · intro idx h
    obtain ⟨hstate, ⟨nm, hsel, _⟩, _⟩ := post_posted_spec env idx h
    refine ⟨hstate, ?_, nm, hsel⟩
    rw [hstate]
    exact readStateValue_update idx
  · intro hno
    apply post_wrote_false_state
    cases hw : (post_image env).wrote
    · rfl
    · obtain ⟨idx, hidx⟩ := post_wrote_true_posted env hw
      exact absurd hidx (hno idx)

/-- C1 witness: a successful run (200, JSON body) from an absent state
file posts index 0 and persists `"0"`. -/
theorem C1_state_advances_only_on_success_witness :
    (post_image (testEnv .absent (.response 200 true))).state = update_state_file 0 ∧
    readStateValue (post_image (testEnv .absent (.response 200 true))).state = .ok 0 ∧
    ∃ nm, get_next_image (testEnv .absent (.response 200 true)).dir
      (testEnv .absent (.response 200 true)).stateFile = .ok (some (nm, 0)) :=
  (C1_state_advances_only_on_success (testEnv .absent (.response 200 true))).1 0 (by decide)

/-- C9: a 2xx response whose body is not valid JSON makes
`response.json()` raise; the exception is caught by a later handler, the
invocation ends without an uncaught error and without writing the state,
and the next invocation (same directory) selects the very same entry. -/
theorem C9_success_requires_json_body (env : Env) (nm : String) (idx : Int) (s : Nat)
    (hp : pyFalsy env.pageId = false) (ha : pyFalsy env.accessToken = false)
    (hsel : get_next_image env.dir env.stateFile = .ok (some (nm, idx)))
    (himg : env.imageOpenable nm = true)
    (hs2xx : 200 ≤ s ∧ s < 300)
    (hhttp : env.http = .response s false) :
    (post_image env).wrote = false ∧
    (post_image env).state = env.stateFile ∧
    (post_image env).result = .ok .otherCaught ∧
    get_next_image env.dir (post_image env).state = .ok (some (nm, idx)) := by
  have hr : raisesForStatus s = false := by
    have h4 : ¬400 ≤ s := by omega
    simp [raisesForStatus, h4]
  have hc : (pyFalsy env.pageId || pyFalsy env.accessToken) = false := by
    rw [hp, ha]; rfl
  have hio : ¬(env.imageOpenable nm = false) := by
    simp [himg]
  unfold post_image
  rw [hc]
  simp only [Bool.false_eq_true, if_false, hsel, if_neg hio, hhttp, hr]
  exact ⟨trivial, trivial, trivial, trivial⟩

/-- C2 counterexample: the claim quantifies over every persisted state
value `k`.  With `k = -2` and two images, the bounds check
`k + 1 = -1 < 2` passes, but there is no position `-1` in the ordered
sequence (no natural number equals it); rather than `NothingToPost` the
selector returns the *last* entry `b2.png` paired with index `-1`
(Python's negative indexing). -/
theorem C2_counterexample :
    get_next_image (.present ["a1.png", "b2.png"]) (.content "-2") =
      .ok (some ("b2.png", -1)) ∧
    readStateValue (.content "-2") = .ok (-2) ∧
    (-2 + 1 : Int) < 2 ∧
    ∀ j : Nat, (j : Int) = -2 + 1 → False := by
  refine ⟨by decide, by decide, by decide, ?_⟩
  intro j h
  omega

/-- C2 (amended): for persisted state values `k ≥ -1` (the values the
script itself ever writes, plus the absent/corrupt default), the selector
returns the entry at position `k + 1` of the ordered sequence paired with
index `k + 1` when `k + 1 < n`, and the none-triple (`NothingToPost`)
when `k + 1 ≥ n`; in particular, state value `1` with exactly two images
yields `NothingToPost`. -/
theorem C2_selector_next_position :
    (∀ (entries : List String) (st : StateFile) (k : Int),
      readStateValue st = .ok k → -1 ≤ k →
      ((entries.filter isImageFile).all fun f => (sortKey? f).isSome) = true →
      (∀ f, (sortedByKey (entries.filter isImageFile))[(k + 1).toNat]? = some f →
        get_next_image (.present entries) st = .ok (some (f, k + 1))) ∧
      (((sortedByKey (entries.filter isImageFile)).length : Int) ≤ k + 1 →
        get_next_image (.present entries) st = .ok none)) ∧
    get_next_image (.present ["a1.png", "b2.png"]) (.content "1") = .ok none := by
  constructor
  · intro entries st k hread hk hall
    constructor
    · intro f hf
      have hlen : (k + 1).toNat < (sortedByKey (entries.filter isImageFile)).length := by
        by_contra hge
        push_neg at hge
        rw [List.getElem?_eq_none hge] at hf
        cases hf
      have hne : ¬((sortedByKey (entries.filter isImageFile)).isEmpty = true) := by
        cases hcase : sortedByKey (entries.filter isImageFile) with
        | nil => rw [hcase] at hlen; simp at hlen
        | cons a l => simp [hcase]
      simp only [get_next_image]
      rw [if_pos hall, if_neg hne]
      simp only [selectNext, hread]
      rw [if_pos (by omega : k + 1 < ((sortedByKey (entries.filter isImageFile)).length : Int))]
      simp only [pyGet?]
      rw [if_neg (by omega : ¬(k + 1 : Int) < 0)]
      rw [hf]
    · intro hge
      simp only [get_next_image]
      rw [if_pos hall]
      by_cases hemp : (sortedByKey (entries.filter isImageFile)).isEmpty = true
      · rw [if_pos hemp]
      · rw [if_neg hemp]
        simp only [selectNext, hread]
        rw [if_neg (by omega : ¬k + 1 < ((sortedByKey (entries.filter isImageFile)).length : Int))]
  · decide

/-- C2 witness: state value 0 over a two-image directory selects the
entry at position 1 of the numerically sorted order. -/
theorem C2_selector_next_position_witness :
    get_next_image (.present ["story2.png", "story1.png"]) (.content "0") =
      .ok (some ("story2.png", 0 + 1)) :=
  (C2_selector_next_position.1 ["story2.png", "story1.png"] (.content "0") 0
    (by decide) (by decide) (by decide)).1 "story2.png" (by decide)

/-- C5 counterexample: a state file that exists but cannot be opened
(`os.path.exists` is true, `open` raises, e.g. `PermissionError`) makes
the selector raise an uncaught error instead of yielding `-1`: the `try`
in `get_next_image` only guards `int(f.read().strip())`, not `open`. -/
theorem C5_counterexample :
    get_next_image (.present ["a1.png"]) .unreadable = .error .ioError ∧
    readStateValue .unreadable = .error .ioError := ⟨by decide, by decide⟩

/-- C5 (amended): reading the state yields `-1` rather than an error when
the persisted file is absent or contains a non-integer value, and in
both cases the selector proceeds exactly as if nothing had been posted; a
file that exists but cannot be opened instead raises an uncaught error. -/
theorem C5_corrupt_state_defaults (s : String) (d : Dir) (hbad : pyInt? s = none) :
    readStateValue .absent = .ok (-1) ∧
    readStateValue (.content s) = .ok (-1) ∧
    get_next_image d (.content s) = get_next_image d .absent := by
  have h2 : readStateValue (.content s) = .ok (-1) := by
    simp [readStateValue, hbad]
  exact ⟨rfl, h2, get_next_image_congr (by rw [h2]; rfl)⟩

/-- C5 witness: non-integer content `"garbage"` reads as `-1` and the
selector picks the first image, as from a fresh state. -/
theorem C5_corrupt_state_defaults_witness :
    readStateValue (.content "garbage") = .ok (-1) ∧
    get_next_image (.present ["a1.png"]) (.content "garbage") = .ok (some ("a1.png", 0)) := by
  obtain ⟨-, h2, h3⟩ := C5_corrupt_state_defaults "garbage" (.present ["a1.png"]) (by decide)
  exact ⟨h2, by rw [h3]; decide⟩

/-- C10: for a persisted value `k ≤ -2` and `n ≥ -(k+1)` images, the
bounds check `k + 1 < n` passes (a negative number is below any length)
and Python's negative indexing makes the selector return the entry at
position `n + (k + 1)`, counted from the end of the ordered list — not
the first image, not an error, and not `NothingToPost`. -/
theorem C10_negative_state_indexes_from_end (files : List String) (st : StateFile) (k : Int)
    (hread : readStateValue st = .ok k) (hk : k ≤ -2)
    (hn : -(k + 1) ≤ (files.length : Int)) :
    k + 1 < (files.length : Int) ∧
    ∃ f, files[((files.length : Int) + (k + 1)).toNat]? = some f ∧
      selectNext files st = .ok (some (f, k + 1)) := by
  have hlt : k + 1 < (files.length : Int) := by omega
  refine ⟨hlt, ?_⟩
  have hjnat : ((files.length : Int) + (k + 1)).toNat < files.length := by omega
  refine ⟨files[((files.length : Int) + (k + 1)).toNat],
    List.getElem?_eq_getElem hjnat, ?_⟩
  simp only [selectNext, hread]
  rw [if_pos hlt]
  simp only [pyGet?]
  rw [if_pos (by omega : (k + 1 : Int) < 0)]
  rw [if_pos (by omega : (0 : Int) ≤ (files.length : Int) + (k + 1))]
  rw [List.getElem?_eq_getElem hjnat]

/-- C10 witness: state `"-3"` over three images selects the second one,
`b2.png`, paired with index `-2`. -/
theorem C10_negative_state_indexes_from_end_witness :
    selectNext ["a1.png", "b2.png", "c3.png"] (.content "-3") =
      .ok (some ("b2.png", -3 + 1)) := by
  obtain ⟨-, f, hf, hsel⟩ := C10_negative_state_indexes_from_end
    ["a1.png", "b2.png", "c3.png"] (.content "-3") (-3) (by decide) (by decide) (by decide)
  have hb : (["a1.png", "b2.png", "c3.png"][(((["a1.png", "b2.png", "c3.png"] :
      List String).length : Int) + (-3 + 1)).toNat]?) = some "b2.png" := by decide
  rw [hf] at hb
  injection hb with hb'
  exact hb' ▸ hsel

/-- C9 witness: a 204 response with a non-JSON body against the
one-image directory. -/
theorem C9_success_requires_json_body_witness :
    (post_image (testEnv .absent (.response 204 false))).wrote = false ∧
    (post_image (testEnv .absent (.response 204 false))).state =
      (testEnv .absent (.response 204 false)).stateFile ∧
    (post_image (testEnv .absent (.response 204 false))).result = .ok .otherCaught ∧
    get_next_image (testEnv .absent (.response 204 false)).dir
      (post_image (testEnv .absent (.response 204 false))).state =
      .ok (some ("a1.png", 0)) :=
  C9_success_requires_json_body (testEnv .absent (.response 204 false)) "a1.png" 0 204
    rfl rfl (by decide) rfl (by omega) rfl

/-- C3: each invocation either leaves the persisted state unchanged or
advances it by exactly one — from the value `k` it read to `k + 1`, the
index of the image just successfully posted — and an advance happens only
on a successful post; consequently, across any sequence of invocations
the persisted state never regresses, never skips an index, and is never
advanced by a failed invocation. -/
theorem C3_state_monotone_gap_free :
    (∀ env : Env, (post_image env).state = env.stateFile ∨
      ∃ k nm, readStateValue env.stateFile = .ok k ∧
        get_next_image env.dir env.stateFile = .ok (some (nm, k + 1)) ∧
        (post_image env).result = .ok (.posted (k + 1)) ∧
        (post_image env).state = update_state_file (k + 1) ∧
        readStateValue (post_image env).state = .ok (k + 1)) ∧
    ∀ (ps : List Stimulus) (st : StateFile),
      List.Chain' (fun a b => b = a ∨ ∃ k, readStateValue a = .ok k ∧
        b = update_state_file (k + 1) ∧ readStateValue b = .ok (k + 1))
        (st :: runSeq ps st) := by
  refine ⟨post_image_step, ?_⟩
  intro ps
  induction ps with
  | nil => intro st; simp [runSeq]
  | cons p ps ih =>
    intro st
    rw [runSeq]
    rw [List.chain'_cons]
    constructor
    · rcases post_image_step (envOf p st) with h | ⟨k, nm, hread, -, -, hstate, hback⟩
      · exact Or.inl h
      · exact Or.inr ⟨k, hread, hstate, hstate ▸ hback⟩
    · exact ih _

/-- C8: with a publish failure injected on every run (an HTTP result that
is not a success response, or a selected image file that fails to open),
any number of repetitions of the one-shot sequence leaves the persisted
state equal to its initial value after every run, and — the directory
listing being unchanged — every run selects the same image entry. -/
theorem C8_repeated_failure_idempotent (ps : List Stimulus) (d : Dir) (st : StateFile)
    (nm : String) (idx : Int)
    (hsel : get_next_image d st = .ok (some (nm, idx)))
    (hps : ∀ p ∈ ps, p.dir = d ∧
      ((∀ s, p.http = .response s true → raisesForStatus s = true) ∨
        p.imageOpenable nm = false)) :
    (∀ st' ∈ runSeq ps st, st' = st) ∧
    ∀ p ∈ ps, get_next_image p.dir st = .ok (some (nm, idx)) := by
  induction ps with
  | nil => exact ⟨by simp [runSeq], by simp⟩
  | cons p ps ih =>
    obtain ⟨hd, hfail⟩ := hps p (List.mem_cons_self p ps)
    have hstep : (post_image (envOf p st)).state = st := by
      apply post_not_success_state
      rcases hfail with hf | hf
      · exact Or.inl hf
      · right
        intro nm' i' hsel'
        have hsel2 : get_next_image p.dir st = .ok (some (nm', i')) := hsel'
        rw [hd, hsel] at hsel2
        simp only [Except.ok.injEq, Option.some.injEq, Prod.mk.injEq] at hsel2
        rw [← hsel2.1]
        exact hf
    obtain ⟨ih1, ih2⟩ := ih (fun q hq => hps q (List.mem_cons_of_mem p hq))
    constructor
    · intro st' hst'
      rw [runSeq] at hst'
      rw [hstep] at hst'
      rcases List.mem_cons.mp hst' with h | h
      · exact h
      · exact ih1 st' h
    · intro q hq
      rcases List.mem_cons.mp hq with h | h
      · rw [h, hd]
        exact hsel
      · exact ih2 q h

/-- C8 witness: two runs against the one-image directory, a transport
failure injected in each; the state file stays absent and both runs
select `a1.png` at index 0. -/
theorem C8_repeated_failure_idempotent_witness :
    (∀ st' ∈ runSeq [testStim .transportFailure, testStim .transportFailure] .absent,
      st' = .absent) ∧
    ∀ p ∈ [testStim .transportFailure, testStim .transportFailure],
      get_next_image p.dir .absent = .ok (some ("a1.png", 0)) := by
  apply C8_repeated_failure_idempotent
    [testStim .transportFailure, testStim .transportFailure]
    (.present ["a1.png"]) .absent "a1.png" 0 (by decide)
  intro p hp
  rcases List.mem_cons.mp hp with h | h
  · subst h
    exact ⟨rfl, Or.inl (fun s hc => nomatch hc)⟩
  · rw [List.mem_singleton.mp h]
    exact ⟨rfl, Or.inl (fun s hc => nomatch hc)⟩

/-- C4 counterexample: two distinct matching filenames can carry the same
digit key (`a1.png` and `b1.png` both have key 1); both pass the filter
and the digit check, yet the sorted output is not *strictly* ascending by
key, contradicting the claim's universal quantification over directories
whose matching filenames each contain at least one digit. -/
theorem C4_counterexample :
    (∀ f ∈ ["a1.png", "b1.png"], isImageFile f = true ∧ (sortKey? f).isSome = true) ∧
    sortedByKey ["a1.png", "b1.png"] = ["a1.png", "b1.png"] ∧
    keyOf "a1.png" = 1 ∧ keyOf "b1.png" = 1 ∧
    ¬ List.Pairwise (fun a b => keyOf a < keyOf b) (sortedByKey ["a1.png", "b1.png"]) := by
  refine ⟨by decide, by decide, by decide, by decide, ?_⟩
  intro hp
  rw [show sortedByKey ["a1.png", "b1.png"] = ["a1.png", "b1.png"] from by decide] at hp
  have h1 : keyOf "a1.png" < keyOf "b1.png" :=
    List.rel_of_pairwise_cons hp (List.mem_singleton.mpr rfl)
  revert h1
  decide

/-- C4 (amended): the Image Lister's output is always sorted ascending
(non-decreasing) by the digit key; it is *strictly* ascending whenever
the matching filenames' keys are pairwise distinct (as the spec assumes
of its unique embedded sequence numbers); the `story1/story2/story10`
scenario sorts numerically, not lexicographically. -/
theorem C4_sorted_by_numeric_key :
    (∀ entries : List String,
      List.Pairwise (fun a b => keyOf a ≤ keyOf b)
        (sortedByKey (entries.filter isImageFile))) ∧
    (∀ entries : List String,
      List.Pairwise (fun a b => keyOf a ≠ keyOf b) (entries.filter isImageFile) →
      List.Pairwise (fun a b => keyOf a < keyOf b)
        (sortedByKey (entries.filter isImageFile))) ∧
    sortedByKey ["story10.png", "story1.png", "story2.png"] =
      ["story1.png", "story2.png", "story10.png"] ∧
    keyOf "story1.png" = 1 ∧ keyOf "story2.png" = 2 ∧ keyOf "story10.png" = 10 := by
  have hsorted : ∀ l : List String, List.Pairwise keyLe (List.insertionSort keyLe l) :=
    fun l => List.sorted_insertionSort keyLe l
  refine ⟨fun entries => hsorted _, ?_, by decide, by decide, by decide, by decide⟩
  intro entries hne
  have hperm := List.perm_insertionSort keyLe (entries.filter isImageFile)
  have hne' : List.Pairwise (fun a b => keyOf a ≠ keyOf b)
      (sortedByKey (entries.filter isImageFile)) :=
    (List.Perm.pairwise_iff (fun h e => h e.symm) hperm).mpr hne
  exact (List.Pairwise.and (hsorted _) hne').imp
    (fun h => lt_of_le_of_ne h.1 h.2)

/-- C4 witness: a directory of distinct-key filenames sorts strictly. -/
theorem C4_sorted_by_numeric_key_witness :
    List.Pairwise (fun a b => keyOf a < keyOf b)
      (sortedByKey ((["story10.png", "story1.png", "story2.png"] :
        List String).filter isImageFile)) :=
  (C4_sorted_by_numeric_key.2.1 ["story10.png", "story1.png", "story2.png"] (by decide))

/-- C6: the claim says every error in the selection/publish path —
including a non-2xx response — is caught and logged, and none escapes
`post_image`.  The `except HTTPError` handler logs
`e.response.json()`; on a 4xx/5xx response whose body is not JSON that
call raises, and an exception raised inside an `except` handler is not
caught by the later clauses of the same `try`, so it escapes
`post_image` and crashes the invocation (the state is still unchanged).
The other listed errors are indeed caught: directory missing, no
orderable filename, missing image file, 4xx/5xx with a JSON body, and
transport failure all end in a logged, normal return. -/
theorem C6_http_error_handler_crash :
    (post_image (testEnv .absent (.response 500 false))).result = .error .jsonError ∧
    (post_image (testEnv .absent (.response 500 false))).state = .absent ∧
    raisesForStatus 500 = true ∧
    (post_image { testEnv .absent .transportFailure with dir := .missing }).result =
      .ok .nothingSelected ∧
    (post_image { testEnv .absent .transportFailure with
      dir := .present ["story.png"] }).result = .ok .nothingSelected ∧
    (post_image { testEnv .absent (.response 200 true) with
      imageOpenable := fun _ => false }).result = .ok .imageMissing ∧
    (post_image (testEnv .absent (.response 404 true))).result =
      .ok (.httpErrorLogged 404) ∧
    (post_image (testEnv .absent .transportFailure)).result = .ok .transportErrorLogged := by
  decide

end BiblePoster
